import Mathlib

/-!
Shallow embedding of `server.js` (Wikimedia Commons image-search proxy).

Conventions of the embedding:
* A JavaScript value that may be `undefined`/`null` is an `Option`.
* A JavaScript number that may be `NaN` is an `Option Int` (`none` = NaN);
  the arithmetic helpers `jmax`, `jmin`, `jmul`, `jsub` propagate NaN the
  way `Math.max`, `Math.min`, `*` and `-` do.
* `x || y` on strings is `jsOrStr` / `jsOrOpt` (the empty string is falsy).
* Truthiness of an optional string (`!item.thumbnail`) is `truthyOpt`.
* Wikimedia `extmetadata` values are modelled as strings (the
  `typeof desc === "string"` guard in the source is therefore always taken
  in its string branch).
-/

namespace Grapevine

/-- JS `a || b` for two strings: `""` is falsy. -/
def jsOrStr (a b : String) : String :=
  if a = "" then b else a

/-- JS `a || b` where `a` may be `undefined`/`null` (`none`) and `b` is a string. -/
def jsOrOpt (a : Option String) (b : String) : String :=
  match a with
  | some s => jsOrStr s b
  | none => b

/-- JS truthiness of an optional string: `undefined`, `null` and `""` are falsy. -/
def truthyOpt : Option String → Bool
  | none => false
  | some s => s ≠ ""

/-- JS `a || b` on optional strings, as used in the `|| null` chains of the
normalizer: keeps `a` when truthy, otherwise yields `b`. -/
def jsOrN (a b : Option String) : Option String :=
  if truthyOpt a then a else b

/-- JS `x || null` for an optional number: `0` (and `null`/`undefined`) become `null`. -/
def jsNumOrNull : Option Int → Option Int
  | none => none
  | some n => if n = 0 then none else some n

/-- `Math.max` with NaN propagation. -/
def jmax : Option Int → Option Int → Option Int
  | some a, some b => some (max a b)
  | _, _ => none

/-- `Math.min` with NaN propagation. -/
def jmin : Option Int → Option Int → Option Int
  | some a, some b => some (min a b)
  | _, _ => none

/-- JS `*` with NaN propagation. -/
def jmul : Option Int → Option Int → Option Int
  | some a, some b => some (a * b)
  | _, _ => none

/-- JS `-` with NaN propagation. -/
def jsub : Option Int → Option Int → Option Int
  | some a, some b => some (a - b)
  | _, _ => none

/-- `String(n)` for a JS number that may be NaN. -/
def jsNumToString : Option Int → String
  | none => "NaN"
  | some n => toString n

/-- `pat` is a leading segment of `hay` (char-list version of JS prefix test). -/
def leadsWith : List Char → List Char → Bool
  | [], _ => true
  | _ :: _, [] => false
  | a :: as, b :: bs => a = b && leadsWith as bs

/-- `pat` occurs contiguously somewhere in `hay`. -/
def containsSeq (hay pat : List Char) : Bool :=
  match hay with
  | [] => leadsWith pat []
  | _ :: rest => leadsWith pat hay || containsSeq rest pat

/-- JS `String.prototype.includes`: literal substring containment. -/
def includesJS (s pat : String) : Bool :=
  containsSeq s.data pat.data

/-- JS `String.prototype.toLowerCase` (ASCII-adequate model). -/
def toLowerS (s : String) : String :=
  ⟨s.data.map Char.toLower⟩

/-- JS `String.prototype.trim`. -/
def trimS (s : String) : String :=
  ⟨((s.data.dropWhile Char.isWhitespace).reverse.dropWhile Char.isWhitespace).reverse⟩

/-- State machine for the regex replace `/<[^>]+>/g → ""`: outside a candidate
tag (`none`) chars pass through; after a `<` (`some buf`, `buf` holding the
chars read since the `<`, reversed) a `>` closes and deletes the span when at
least one char lies between, while `<>` (empty span) does not match and is
emitted verbatim, exactly as the regex engine behaves. -/
def stripTagsAux : List Char → Option (List Char) → List Char
  | [], none => []
  | [], some buf => '<' :: buf.reverse
  | c :: cs, none =>
    if c = '<' then stripTagsAux cs (some [])
    else c :: stripTagsAux cs none
  | c :: cs, some buf =>
    if c = '>' then
      if buf = [] then '<' :: '>' :: stripTagsAux cs none
      else stripTagsAux cs none
    else stripTagsAux cs (some (c :: buf))

/-- `s.replace(/<[^>]+>/g, '')`. -/
def stripTags (s : String) : String :=
  ⟨stripTagsAux s.data none⟩

/-- JS `parseInt` with no radix argument: skip whitespace, optional sign,
`0x`/`0X` hex prefix, then the longest run of digits of the radix; `none`
models NaN (no digits). -/
def digitVal (radix : Nat) (c : Char) : Option Nat :=
  let v :=
    if c.toNat ≥ 48 ∧ c.toNat ≤ 57 then some (c.toNat - 48)
    else if c.toNat ≥ 65 ∧ c.toNat ≤ 90 then some (c.toNat - 55)
    else if c.toNat ≥ 97 ∧ c.toNat ≤ 122 then some (c.toNat - 87)
    else none
  match v with
  | some n => if n < radix then some n else none
  | none => none

/-- Accumulate the leading digits of `cs` in base `radix`; `found` records
whether at least one digit has been read. -/
def parseDigits (radix : Nat) : List Char → Nat → Bool → Option Nat
  | [], acc, found => if found then some acc else none
  | c :: cs, acc, found =>
    match digitVal radix c with
    | some d => parseDigits radix cs (acc * radix + d) true
    | none => if found then some acc else none

def parseIntJS (s : String) : Option Int :=
  let cs := s.data.dropWhile Char.isWhitespace
  let signAndRest : Int × List Char :=
    match cs with
    | c :: rest =>
      if c = '-' then (-1, rest)
      else if c = '+' then (1, rest)
      else (1, cs)
    | [] => (1, [])
  let sign := signAndRest.1
  let body := signAndRest.2
  let mag : Option Nat :=
    match body with
    | c0 :: c1 :: rest =>
      if c0 = '0' ∧ (c1 = 'x' ∨ c1 = 'X') then parseDigits 16 rest 0 false
      else parseDigits 10 body 0 false
    | _ => parseDigits 10 body 0 false
  mag.map (fun m => sign * (m : Int))

/-- Percent-encoding helpers for `encodeURIComponent`. -/
def hexDigit (n : Nat) : Char :=
  if n < 10 then Char.ofNat (48 + n) else Char.ofNat (55 + n)

/-- UTF-8 bytes of a code point. -/
def utf8Bytes (n : Nat) : List Nat :=
  if n < 128 then [n]
  else if n < 2048 then [192 + n / 64, 128 + n % 64]
  else if n < 65536 then [224 + n / 4096, 128 + (n / 64) % 64, 128 + n % 64]
  else [240 + n / 262144, 128 + (n / 4096) % 64, 128 + (n / 64) % 64, 128 + n % 64]

/-- Characters `encodeURIComponent` leaves unescaped. -/
def unreservedURI (c : Char) : Bool :=
  c.isAlpha || c.isDigit ||
    c ∈ ['-', '_', '.', '!', '~', '*', Char.ofNat 39, '(', ')']

def encodeURIComponent (s : String) : String :=
  ⟨s.data.foldr
    (fun c acc =>
      if unreservedURI c then c :: acc
      else (utf8Bytes c.toNat).foldr
        (fun b acc2 => '%' :: hexDigit (b / 16) :: hexDigit (b % 16) :: acc2) acc)
    []⟩

/-! ## Data model -/

/-- `p.thumbnail` of a raw Wikimedia page (`pageimages` prop). -/
structure PageThumb where
  source : Option String
deriving DecidableEq

/-- An `extmetadata` entry (`{ value: ... }`); values modelled as strings. -/
structure ExtValue where
  value : Option String
deriving DecidableEq

/-- The `extmetadata` object of an imageinfo element. -/
structure ExtMeta where
  ImageDescription : Option ExtValue
deriving DecidableEq

/-- One element of a raw page's `imageinfo` array. -/
structure ImageInfo where
  thumburl : Option String
  url : Option String
  width : Option Int
  height : Option Int
  extmetadata : Option ExtMeta
deriving DecidableEq

/-- A raw upstream page record; every field defensively optional. -/
structure RawPage where
  pageid : Option Nat
  title : Option String
  imageinfo : Option (List ImageInfo)
  thumbnail : Option PageThumb
  extract : Option String
  fullurl : Option String
deriving DecidableEq

/-- The uniform result shape returned to callers. -/
structure NormalizedResult where
  id : Option Nat
  title : Option String
  thumbnail : Option String
  contentUrl : Option String
  hostPage : String
  width : Option Int
  height : Option Int
  description : String
deriving DecidableEq

/-! ## passesSafeFilter (server.js lines 45-59) -/

def BLACKLIST : List String :=
  ["porn", "nsfw", "nude", "sex", "erotic", "explicit", "scantily", "topless", "bdsm"]

/-- `passesSafeFilter(item, mode)`: `!item` is falsy only for a missing item
(`none`); the Strict branch joins `item.title || ""` and
`item.description || ""` with a space, lowercases, and rejects on any
blacklist hit (`for..of` with early `return false` = no `any` hit). -/
def passesSafeFilter (item : Option NormalizedResult) (mode : String) : Bool :=
  match item with
  | none => false
  | some it =>
    if mode ≠ "Strict" then true
    else
      let text := jsOrOpt it.title "" ++ " " ++ jsOrStr it.description ""
      let lower := toLowerS text
      !(BLACKLIST.any fun bad => includesJS lower bad)

/-! ## searchWikimedia (server.js lines 63-110) -/

/-- `ii`: first element of `p.imageinfo` when that is an array
(`Array.isArray(p.imageinfo) ? p.imageinfo[0] : null`; `[0]` of an empty
array is `undefined`). -/
def firstII (p : RawPage) : Option ImageInfo :=
  match p.imageinfo with
  | some l => l.head?
  | none => none

/-- `ii?.extmetadata?.ImageDescription?.value`. -/
def iiDescValue (p : RawPage) : Option String :=
  (((firstII p).bind ImageInfo.extmetadata).bind ExtMeta.ImageDescription).bind ExtValue.value

/-- Normalization of one raw page record (the body of the `.map` in
`searchWikimedia`). -/
def normalizePage (p : RawPage) : NormalizedResult :=
  let ii := firstII p
  let thumbnail := jsOrN (jsOrN (p.thumbnail.bind PageThumb.source)
    (match ii with | some i => i.thumburl | none => none)) none
  let contentUrl := jsOrN (ii.bind ImageInfo.url) none
  let desc := jsOrOpt (iiDescValue p) (jsOrOpt p.extract "")
  { id := p.pageid
    title := p.title
    thumbnail := thumbnail
    contentUrl := contentUrl
    hostPage := jsOrOpt p.fullurl
      ("https://commons.wikimedia.org/wiki/" ++
        encodeURIComponent (match p.title with | some t => t | none => "undefined"))
    width := jsNumOrNull (ii.bind ImageInfo.width)
    height := jsNumOrNull (ii.bind ImageInfo.height)
    description := trimS (stripTags desc) }

/-- `sroffset = Math.max(0, (page - 1) * per_page)` (server.js line 64). -/
def sroffset (page per_page : Option Int) : Option Int :=
  jmax (some 0) (jmul (jsub page (some 1)) per_page)

/-- The query parameters of the outbound upstream request that depend on the
inbound request (the rest are fixed literals). -/
structure UpstreamParams where
  gsrsearch : String
  gsrlimit : String
  gsroffset : String
deriving DecidableEq

def buildParams (query : String) (page per_page : Option Int) : UpstreamParams :=
  { gsrsearch := query
    gsrlimit := jsNumToString per_page
    gsroffset := jsNumToString (sroffset page per_page) }

/-! ### Object.values on the pageid-keyed `query.pages` object

`json.query.pages` is an object keyed by pageid strings. ECMAScript
own-property enumeration (hence `Object.values`) yields integer-like keys
(canonical decimal array indices, value ≤ 2^32 - 2) in ascending numeric
order first, then the remaining string keys in property-creation order. So
`Object.values` re-sorts numeric pageid keys by pageid, regardless of the
order the upstream emitted them in the JSON text. -/

def digitsToNat (cs : List Char) : Nat :=
  cs.foldl (fun acc c => acc * 10 + (c.toNat - 48)) 0

/-- An ES array-index key: a canonical decimal integer string (no leading
zero except "0" itself) whose value is at most 2^32 - 2. -/
def isArrayIndex (s : String) : Bool :=
  match s.data with
  | [] => false
  | c :: cs =>
    (c :: cs).all Char.isDigit && (c != '0' || cs.isEmpty) &&
      decide (digitsToNat (c :: cs) < 4294967295)

/-- Numeric value of an (array-index) key. -/
def keyNum (s : String) : Nat :=
  digitsToNat s.data

/-- Stable insertion into a list ascending by numeric key. -/
def insertByKey (kv : String × RawPage) :
    List (String × RawPage) → List (String × RawPage)
  | [] => [kv]
  | hd :: tl =>
    if keyNum kv.1 ≤ keyNum hd.1 then kv :: hd :: tl
    else hd :: insertByKey kv tl

/-- Stable insertion sort ascending by numeric key. -/
def sortByKeyNum : List (String × RawPage) → List (String × RawPage)
  | [] => []
  | kv :: rest => insertByKey kv (sortByKeyNum rest)

/-- ES own-property enumeration order of an object given as key/record pairs
in property-creation order: array-index keys ascending numerically, then the
rest in creation order. -/
def enumProps (props : List (String × RawPage)) : List (String × RawPage) :=
  sortByKeyNum (props.filter fun kv => isArrayIndex kv.1) ++
    props.filter fun kv => !isArrayIndex kv.1

/-- `Object.values(json.query.pages)`. -/
def objectValues (props : List (String × RawPage)) : List RawPage :=
  (enumProps props).map Prod.snd

/-- Outcome of the `fetch` to the Wikimedia API, as observed by
`searchWikimedia`: either a success response whose `query.pages` object holds
the key/record pairs `props` in the order the upstream emitted them in the
JSON text (property-creation order), or a non-ok HTTP status. The model
applies `Object.values` to `props` via `objectValues`, which follows ES
enumeration order (ascending numeric pageid keys first), not the emitted
order. -/
inductive UpstreamResp where
  | ok (props : List (String × RawPage))
  | httpError (status : Nat)
deriving DecidableEq

structure SearchData where
  query : String
  results : List NormalizedResult
deriving DecidableEq

/-- `searchWikimedia` after the fetch: throws
`` Error(`Wikimedia API error ${res.status}`) `` on a non-ok response
(modelled as `Except.error` of the message), otherwise maps `normalizePage`
over `Object.values(json.query.pages)` — i.e. over the records in ES
enumeration order (ascending numeric pageid keys), which the `.map` then
preserves. -/
def searchWikimediaModel (query : String) (resp : UpstreamResp) : Except String SearchData :=
  match resp with
  | .httpError status => .error ("Wikimedia API error " ++ toString status)
  | .ok props => .ok { query := query, results := (objectValues props).map normalizePage }

/-! ## GET /api/search handler (server.js lines 113-142) -/

/-- `req.query` as the handler reads it. -/
structure SearchQuery where
  q : Option String
  safe : Option String
  page : Option String
  per_page : Option String
deriving DecidableEq

/-- `Math.max(1, parseInt(req.query.page || "1"))`. -/
def handlerPage (o : Option String) : Option Int :=
  jmax (some 1) (parseIntJS (jsOrOpt o "1"))

/-- `Math.min(48, Math.max(8, parseInt(req.query.per_page || "24")))`. -/
def handlerPerPage (o : Option String) : Option Int :=
  jmin (some 48) (jmax (some 8) (parseIntJS (jsOrOpt o "24")))

/-- The `.filter` applied to `data.results`: drop records with neither a
truthy `thumbnail` nor a truthy `contentUrl`, then apply the safe filter. -/
def handlerFilter (safe : String) (rs : List NormalizedResult) : List NormalizedResult :=
  rs.filter fun item =>
    if !truthyOpt item.thumbnail && !truthyOpt item.contentUrl then false
    else passesSafeFilter (some item) safe

/-- Body of the JSON response; a NaN number field serializes as `null`
(`Option Int` with `none`). -/
inductive RespBody where
  | errorMsg (msg : String)
  | payload (query : String) (page : Option Int) (per_page : Option Int)
      (count : Nat) (results : List NormalizedResult)
deriving DecidableEq

structure HttpResponse where
  status : Nat
  body : RespBody
deriving DecidableEq

/-- The whole request handler, with the upstream fetch outcome passed in as
`upstream` (the handler performs no upstream call on the 400 path, so the
response there cannot depend on `upstream`). The catch block returns
`err.message || "Server error"`. -/
def handleSearch (req : SearchQuery) (upstream : UpstreamResp) : HttpResponse :=
  let q := trimS (jsOrOpt req.q "")
  if q = "" then ⟨400, .errorMsg "Missing q parameter"⟩
  else
    let safe := jsOrOpt req.safe "Strict"
    let page := handlerPage req.page
    let per_page := handlerPerPage req.per_page
    match searchWikimediaModel q upstream with
    | .error msg => ⟨500, .errorMsg (jsOrStr msg "Server error")⟩
    | .ok data =>
      let filtered := handlerFilter safe data.results
      ⟨200, .payload data.query page per_page filtered.length filtered⟩

/-! ## Concrete records used by the claim theorems -/

/-- A raw page titled "Sexton House" with no image info or extract. -/
def rawSexton : RawPage :=
  { pageid := some 1, title := some "Sexton House", imageinfo := none,
    thumbnail := none, extract := none, fullurl := none }

def sextonRec : NormalizedResult := normalizePage rawSexton

/-- A raw page with a `pageimages` thumbnail, used as a record that survives
the handler's drop-empty filter. -/
def rawThumb : RawPage :=
  { pageid := some 7, title := some "Cat", imageinfo := none,
    thumbnail := some ⟨some "https://thumb.example/cat.jpg"⟩,
    extract := none, fullurl := some "https://host.example/Cat" }

/-! ## Claim theorems -/

/-- Claim C1: for every normalized record and mode `Strict`,
`passesSafeFilter` rejects exactly when the lower-cased space-joined
concatenation of title and description (missing fields as `""`) contains some
blacklisted term as a literal substring — so "Sexton House" is rejected under
`Strict`; for every other mode the record passes unconditionally, and
"Sexton House" passes under `Off`. -/
theorem claim_C1 :
    (∀ it : NormalizedResult,
      passesSafeFilter (some it) "Strict" = false ↔
        ∃ bad ∈ BLACKLIST,
          includesJS (toLowerS (jsOrOpt it.title "" ++ " " ++ jsOrStr it.description "")) bad
            = true) ∧
    (∀ (it : NormalizedResult) (mode : String),
      mode ≠ "Strict" → passesSafeFilter (some it) mode = true) ∧
    passesSafeFilter (some sextonRec) "Strict" = false ∧
    passesSafeFilter (some sextonRec) "Off" = true := by
  refine ⟨fun it => ?_, fun it mode h => ?_, by decide, by decide⟩
  · simp [passesSafeFilter, List.any_eq_true]
  · simp [passesSafeFilter, h]

/-- Witness for C1 at the "Sexton House" record and mode `Moderate`. -/
theorem claim_C1_witness : passesSafeFilter (some sextonRec) "Moderate" = true :=
  claim_C1.2.1 sextonRec "Moderate" (by decide)

/-- Anything in `insertByKey kv l` is `kv` or was in `l`. -/
lemma mem_insertByKey {x kv : String × RawPage} {l : List (String × RawPage)}
    (h : x ∈ insertByKey kv l) : x = kv ∨ x ∈ l := by
  induction l with
  | nil => simpa [insertByKey] using h
  | cons hd tl ih =>
    by_cases hc : keyNum kv.1 ≤ keyNum hd.1
    · simp only [insertByKey, if_pos hc] at h
      simpa using h
    · simp only [insertByKey, if_neg hc] at h
      rcases List.mem_cons.mp h with h1 | h2
      · exact Or.inr (h1 ▸ List.mem_cons_self hd tl)
      · rcases ih h2 with h3 | h4
        · exact Or.inl h3
        · exact Or.inr (List.mem_cons_of_mem hd h4)

/-- Inserting into a key-ascending list keeps it key-ascending. -/
lemma pairwise_insertByKey {kv : String × RawPage} {l : List (String × RawPage)}
    (h : l.Pairwise fun a b => keyNum a.1 ≤ keyNum b.1) :
    (insertByKey kv l).Pairwise fun a b => keyNum a.1 ≤ keyNum b.1 := by
  induction l with
  | nil => simp [insertByKey]
  | cons hd tl ih =>
    rcases List.pairwise_cons.mp h with ⟨hhd, htl⟩
    by_cases hc : keyNum kv.1 ≤ keyNum hd.1
    · simp only [insertByKey, if_pos hc]
      refine List.Pairwise.cons ?_ h
      intro b hb
      rcases List.mem_cons.mp hb with rfl | hbtl
      · exact hc
      · exact le_trans hc (hhd b hbtl)
    · simp only [insertByKey, if_neg hc]
      refine List.Pairwise.cons ?_ (ih htl)
      intro b hb
      rcases mem_insertByKey hb with rfl | hbtl
      · exact le_of_not_le hc
      · exact hhd b hbtl

/-- The insertion sort produces a key-ascending list. -/
lemma pairwise_sortByKeyNum (l : List (String × RawPage)) :
    (sortByKeyNum l).Pairwise fun a b => keyNum a.1 ≤ keyNum b.1 := by
  induction l with
  | nil => simp [sortByKeyNum]
  | cons kv rest ih => exact pairwise_insertByKey ih

lemma perm_insertByKey (kv : String × RawPage) (l : List (String × RawPage)) :
    (insertByKey kv l).Perm (kv :: l) := by
  induction l with
  | nil => simp [insertByKey]
  | cons hd tl ih =>
    by_cases hc : keyNum kv.1 ≤ keyNum hd.1
    · simp [insertByKey, hc]
    · simp only [insertByKey, if_neg hc]
      exact (List.Perm.cons hd ih).trans (List.Perm.swap kv hd tl)

lemma perm_sortByKeyNum (l : List (String × RawPage)) :
    (sortByKeyNum l).Perm l := by
  induction l with
  | nil => simp [sortByKeyNum]
  | cons kv rest ih =>
    exact (perm_insertByKey kv (sortByKeyNum rest)).trans (List.Perm.cons kv ih)

/-- `Object.values` is a permutation of the mapping's records: the enumeration
reorders but neither drops nor duplicates. -/
lemma objectValues_perm (props : List (String × RawPage)) :
    (objectValues props).Perm (props.map Prod.snd) := by
  refine List.Perm.map Prod.snd ?_
  exact ((perm_sortByKeyNum _).append_right _).trans (List.filter_append_perm _ props)

/-- Claim C2, counterexample: a page mapping whose records arrive in the JSON
text with pageid keys "7" then "3". `Object.values` enumerates integer-like
keys in ascending numeric order, so the results come out re-sorted — record
"3" first — not in the mapping's insertion order as the claim states. -/
theorem claim_C2_counterexample :
    searchWikimediaModel "cats" (.ok [("7", rawSexton), ("3", rawThumb)])
        = .ok ⟨"cats", [normalizePage rawThumb, normalizePage rawSexton]⟩ ∧
      [normalizePage rawThumb, normalizePage rawSexton]
        ≠ [normalizePage rawSexton, normalizePage rawThumb] := by
  exact ⟨rfl, by decide⟩

/-- Claim C2 as amended: the results are in the order of
`Object.values(json.query.pages)` — integer-like pageid keys in ascending
numeric order first, remaining keys in creation order — and the normalizer
preserves that enumeration order one-to-one: the i-th result is the
normalization of the i-th enumerated record, the lengths agree, the
integer-keyed segment is in ascending numeric key order, and the enumeration
is a permutation of the mapping's records (nothing dropped or added, no
further re-sorting after `Object.values`). -/
theorem claim_C2_amended :
    (∀ (query : String) (props : List (String × RawPage)) (d : SearchData),
      searchWikimediaModel query (.ok props) = .ok d →
      d.results.length = (objectValues props).length ∧
        ∀ i : Nat, d.results[i]? = ((objectValues props)[i]?).map normalizePage) ∧
    (∀ props : List (String × RawPage),
      (sortByKeyNum (props.filter fun kv => isArrayIndex kv.1)).Pairwise
        fun a b => keyNum a.1 ≤ keyNum b.1) ∧
    (∀ props : List (String × RawPage),
      (objectValues props).Perm (props.map Prod.snd)) := by
  refine ⟨fun query props d h => ?_, fun props => pairwise_sortByKeyNum _,
    fun props => objectValues_perm props⟩
  simp only [searchWikimediaModel, Except.ok.injEq] at h
  subst h
  exact ⟨by simp, fun i => by simp⟩

/-- Witness for the amended C2 at the two-record mapping with keys "7", "3". -/
theorem claim_C2_witness :
    (SearchData.mk "cats"
        ((objectValues [("7", rawSexton), ("3", rawThumb)]).map normalizePage)).results.length
        = (objectValues [("7", rawSexton), ("3", rawThumb)]).length ∧
      ∀ i : Nat,
        (SearchData.mk "cats"
            ((objectValues [("7", rawSexton), ("3", rawThumb)]).map normalizePage)).results[i]?
          = ((objectValues [("7", rawSexton), ("3", rawThumb)])[i]?).map normalizePage :=
  claim_C2_amended.1 "cats" [("7", rawSexton), ("3", rawThumb)] _ rfl

/-- Claim C5: a request whose `q` is absent or blank after trimming gets a 400
response with body `{"error":"Missing q parameter"}`; the response is the same
for every upstream outcome, so no upstream call is observable. -/
theorem claim_C5 :
    (∀ (req : SearchQuery) (u : UpstreamResp),
      trimS (jsOrOpt req.q "") = "" →
      handleSearch req u = ⟨400, .errorMsg "Missing q parameter"⟩) ∧
    (∀ (req : SearchQuery) (u u' : UpstreamResp),
      trimS (jsOrOpt req.q "") = "" →
      handleSearch req u = handleSearch req u') := by
  have h400 : ∀ (req : SearchQuery) (u : UpstreamResp),
      trimS (jsOrOpt req.q "") = "" →
      handleSearch req u = ⟨400, .errorMsg "Missing q parameter"⟩ := by
    intro req u h
    simp [handleSearch, h]
  exact ⟨h400, fun req u u' h => by rw [h400 req u h, h400 req u' h]⟩

/-- Witness for C5: an absent `q` and a whitespace-only `q`. -/
theorem claim_C5_witness :
    handleSearch ⟨none, none, none, none⟩ (.ok [("1", rawSexton)])
        = ⟨400, .errorMsg "Missing q parameter"⟩ ∧
      handleSearch ⟨some "   ", none, none, none⟩ (.httpError 500)
        = ⟨400, .errorMsg "Missing q parameter"⟩ :=
  ⟨claim_C5.1 ⟨none, none, none, none⟩ (.ok [("1", rawSexton)]) (by decide),
   claim_C5.1 ⟨some "   ", none, none, none⟩ (.httpError 500) (by decide)⟩

/-- Claim C6: for page ≥ 1 and per_page in [8,48] the upstream offset is
`(page-1) * per_page` and never negative; page 2 with per_page 10 gives
offset 10, and page 1 gives offset 0. -/
theorem claim_C6 :
    (∀ p pp : Int, 1 ≤ p → 8 ≤ pp → pp ≤ 48 →
      sroffset (some p) (some pp) = some ((p - 1) * pp) ∧ 0 ≤ (p - 1) * pp) ∧
    sroffset (some 2) (some 10) = some 10 ∧
    (∀ pp : Int, sroffset (some 1) (some pp) = some 0) := by
  refine ⟨fun p pp h1 h8 _ => ?_, by decide, fun pp => ?_⟩
  · have hprod : 0 ≤ (p - 1) * pp := mul_nonneg (by omega) (by omega)
    refine ⟨?_, hprod⟩
    simp [sroffset, jmax, jmul, jsub, max_eq_right hprod]
  · simp [sroffset, jmax, jmul, jsub]

/-- Witness for C6 at page 3, per_page 10. -/
theorem claim_C6_witness :
    sroffset (some 3) (some 10) = some ((3 - 1) * 10) ∧ (0 : Int) ≤ (3 - 1) * 10 :=
  claim_C6.1 3 10 (by decide) (by decide) (by decide)

/-- If an optional string is truthy it is not `none`. -/
lemma truthyOpt_ne_none {o : Option String} (h : truthyOpt o = true) : o ≠ none := by
  cases o with
  | none => simp [truthyOpt] at h
  | some s => simp

/-- Membership in the handler's filter output forces a truthy thumbnail or
contentUrl. -/
lemma handlerFilter_mem {safe : String} {rs : List NormalizedResult}
    {r : NormalizedResult} (h : r ∈ handlerFilter safe rs) :
    r.thumbnail ≠ none ∨ r.contentUrl ≠ none := by
  have hp := (List.mem_filter.mp h).2
  by_cases ht : truthyOpt r.thumbnail
  · exact Or.inl (truthyOpt_ne_none ht)
  by_cases hc : truthyOpt r.contentUrl
  · exact Or.inr (truthyOpt_ne_none hc)
  simp [ht, hc] at hp

/-- Claim C4: every record in a 200 response has a non-null thumbnail or a
non-null contentUrl, for every safe mode; a record lacking both is dropped by
the handler's filter regardless of mode. -/
theorem claim_C4 :
    (∀ (req : SearchQuery) (u : UpstreamResp) (qy : String) (pg pp : Option Int)
        (c : Nat) (rs : List NormalizedResult),
      handleSearch req u = ⟨200, .payload qy pg pp c rs⟩ →
      ∀ r ∈ rs, r.thumbnail ≠ none ∨ r.contentUrl ≠ none) ∧
    (∀ (safe : String) (rs : List NormalizedResult) (r : NormalizedResult),
      r.thumbnail = none → r.contentUrl = none → r ∉ handlerFilter safe rs) := by
  constructor
  · intro req u qy pg pp c rs h r hr
    rw [handleSearch] at h
    by_cases hq : trimS (jsOrOpt req.q "") = ""
    · rw [if_pos hq] at h
      simp at h
    rw [if_neg hq] at h
    cases u with
    | httpError status =>
      simp [searchWikimediaModel] at h
    | ok props =>
      simp only [searchWikimediaModel] at h
      have hrs : rs
          = handlerFilter (jsOrOpt req.safe "Strict") ((objectValues props).map normalizePage) := by
        have := congrArg HttpResponse.body h
        simp only at this
        exact (RespBody.payload.inj this).2.2.2.2.symm
      rw [hrs] at hr
      exact handlerFilter_mem hr
  · intro safe rs r ht hc hmem
    rcases handlerFilter_mem hmem with h | h
    · exact h ht
    · exact h hc

/-- Witness for C4: a concrete 200 response whose single record keeps its
thumbnail, and a concrete record with neither field that is dropped. -/
theorem claim_C4_witness :
    ((normalizePage rawThumb).thumbnail ≠ none ∨ (normalizePage rawThumb).contentUrl ≠ none) ∧
      ({ id := none, title := some "Sexton House", thumbnail := none, contentUrl := none,
         hostPage := "h", width := none, height := none,
         description := "" } : NormalizedResult) ∉ handlerFilter "Off" [sextonRec] :=
  ⟨claim_C4.1 ⟨some "cats", some "Off", none, none⟩ (.ok [("7", rawThumb)]) "cats"
      (some 1) (some 24) 1 [normalizePage rawThumb] (by decide)
      (normalizePage rawThumb) (by decide),
   claim_C4.2 "Off" [sextonRec] _ rfl rfl⟩

/-- Claim C10: the safe-filter verdict depends only on title, description and
mode — two records agreeing on title and description get the same verdict for
every mode, whatever their other fields. -/
theorem claim_C10 :
    ∀ (mode : String) (a b : NormalizedResult),
      a.title = b.title → a.description = b.description →
      passesSafeFilter (some a) mode = passesSafeFilter (some b) mode := by
  intro mode a b ht hd
  simp only [passesSafeFilter, ht, hd]

/-- Records for the C10 witness: same title and description, every other
field different. -/
def recC10A : NormalizedResult :=
  { id := some 1, title := some "Beach", thumbnail := some "https://a/t.jpg",
    contentUrl := some "https://a/f.jpg", hostPage := "https://a",
    width := some 100, height := some 50, description := "sand" }

def recC10B : NormalizedResult :=
  { id := some 2, title := some "Beach", thumbnail := none,
    contentUrl := none, hostPage := "https://b",
    width := none, height := some 9, description := "sand" }

/-- Witness for C10 at two concrete records differing in id, thumbnail,
contentUrl, hostPage, width and height. -/
theorem claim_C10_witness :
    passesSafeFilter (some recC10A) "Strict" = passesSafeFilter (some recC10B) "Strict" :=
  claim_C10 "Strict" recC10A recC10B (by decide) (by decide)

/-- Claim C3, counterexample: for the per_page parameter string "abc",
`parseInt` yields NaN, `Math.max`/`Math.min` propagate it, and the 200
response carries `per_page` NaN (serialized as `null`) — no value in [8,48].
So the claim fails for this per_page string. -/
theorem claim_C3_counterexample :
    handleSearch ⟨some "cats", none, none, some "abc"⟩ (.ok [])
        = ⟨200, .payload "cats" (some 1) none 0 []⟩ ∧
      handlerPerPage (some "abc") = none := by
  decide

/-- Claim C3 as amended: whenever the computed per_page is an actual number it
lies in [8,48]; an absent parameter gives 24, "1000" gives 48, "0" gives 8 —
but a string parsing to NaN gives NaN (null), not a value in range. -/
theorem claim_C3_amended :
    (∀ (s : Option String) (v : Int), handlerPerPage s = some v → 8 ≤ v ∧ v ≤ 48) ∧
    handlerPerPage none = some 24 ∧
    handlerPerPage (some "1000") = some 48 ∧
    handlerPerPage (some "0") = some 8 := by
  refine ⟨fun s v h => ?_, by decide, by decide, by decide⟩
  cases hp : parseIntJS (jsOrOpt s "24") with
  | none => simp [handlerPerPage, jmin, jmax, hp] at h
  | some n =>
    simp [handlerPerPage, jmin, jmax, hp] at h
    omega

/-- Witness for the amended C3 at per_page string "100". -/
theorem claim_C3_witness :
    handlerPerPage (some "100") = some 48 ∧ (8 ≤ (48 : Int) ∧ (48 : Int) ≤ 48) :=
  ⟨by decide, claim_C3_amended.1 (some "100") 48 (by decide)⟩

/-- The upstream error message is never the empty string. -/
lemma wikimediaMsg_ne_empty (t : String) : ("Wikimedia API error " ++ t) ≠ "" := by
  intro h
  have h2 := congrArg String.length h
  rw [String.length_append] at h2
  have h20 : ("Wikimedia API error " : String).length = 20 := by decide
  have h0 : ("" : String).length = 0 := rfl
  rw [h20, h0] at h2
  omega

/-- Claim C7, counterexample: on upstream failure the message returned to the
caller is `err.message` itself, which embeds the upstream status — it is not
a generic message: statuses 503 and 404 produce different 500 bodies, and the
body for 503 contains "503". -/
theorem claim_C7_counterexample :
    handleSearch ⟨some "cats", none, none, none⟩ (.httpError 503)
        = ⟨500, .errorMsg "Wikimedia API error 503"⟩ ∧
      handleSearch ⟨some "cats", none, none, none⟩ (.httpError 404)
        = ⟨500, .errorMsg "Wikimedia API error 404"⟩ ∧
      ("Wikimedia API error 503" : String) ≠ "Wikimedia API error 404" ∧
      includesJS "Wikimedia API error 503" "503" = true := by
  decide

/-- Claim C7 as amended: a non-success upstream status fails the whole request
with a 500 whose error message is exactly the thrown upstream-error message
"Wikimedia API error <status>" — the upstream status is embedded in the
message, and that same message (not a generic one) is returned to the
caller. -/
theorem claim_C7_amended :
    ∀ (req : SearchQuery) (status : Nat),
      trimS (jsOrOpt req.q "") ≠ "" →
      handleSearch req (.httpError status)
        = ⟨500, .errorMsg ("Wikimedia API error " ++ toString status)⟩ := by
  intro req status h
  simp [handleSearch, h, searchWikimediaModel, jsOrStr,
    wikimediaMsg_ne_empty (toString status)]

/-- Witness for the amended C7 at upstream status 503. -/
theorem claim_C7_witness :
    handleSearch ⟨some "cats", none, none, none⟩ (.httpError 503)
      = ⟨500, .errorMsg ("Wikimedia API error " ++ toString 503)⟩ :=
  claim_C7_amended ⟨some "cats", none, none, none⟩ 503 (by decide)

/-- The extract fallback of the description chain, spec-side: extract when
present and non-empty, tags stripped and trimmed, else empty. -/
def descExtractC8 (e : Option String) : String :=
  match e with
  | some s => if s = "" then "" else trimS (stripTags s)
  | none => ""

/-- The description exactly as claim C8 words it: the first image-info's
ImageDescription value if present, else the extract if present, else "", with
tag spans removed and whitespace trimmed. -/
def descriptionPerClaimC8 (p : RawPage) : String :=
  match iiDescValue p with
  | some v => trimS (stripTags v)
  | none =>
    match p.extract with
    | some e => trimS (stripTags e)
    | none => ""

/-- The description per the amended claim C8: the ImageDescription value when
present and non-empty (the empty string is falsy in JS and falls through),
else the extract when present and non-empty, else "", tags stripped and
trimmed. -/
def descriptionAmendedC8 (p : RawPage) : String :=
  match iiDescValue p with
  | some v => if v = "" then descExtractC8 p.extract else trimS (stripTags v)
  | none => descExtractC8 p.extract

/-- An image-info element whose ImageDescription value is present but empty. -/
def iiEmptyDesc : ImageInfo :=
  { thumburl := none, url := none, width := none, height := none,
    extmetadata := some { ImageDescription := some { value := some "" } } }

/-- A raw page whose ImageDescription value is present but empty, with a
non-empty extract. -/
def rawEmptyDesc : RawPage :=
  { pageid := some 3, title := some "X", imageinfo := some [iiEmptyDesc],
    thumbnail := none, extract := some "<b>hello</b>", fullurl := none }

/-- Claim C8, counterexample: on a record whose ImageDescription value is
present but empty, the claim demands the (stripped, trimmed) value — "" — but
the code's `||` chain treats "" as falsy and uses the extract, producing
"hello". -/
theorem claim_C8_counterexample :
    iiDescValue rawEmptyDesc = some "" ∧
      descriptionPerClaimC8 rawEmptyDesc = "" ∧
      (normalizePage rawEmptyDesc).description = "hello" := by
  decide

/-- The `extract || ""` tail of the chain agrees with the spec-side fallback. -/
lemma extract_chain (e : Option String) :
    trimS (stripTags (jsOrOpt e "")) = descExtractC8 e := by
  cases e with
  | none => decide
  | some s =>
    by_cases h0 : s = ""
    · subst h0; decide
    · simp [jsOrOpt, jsOrStr, descExtractC8, h0]

/-- Claim C8 as amended: the normalized description equals the amended
spec-side description for every raw page. -/
theorem claim_C8_amended :
    ∀ p : RawPage, (normalizePage p).description = descriptionAmendedC8 p := by
  intro p
  have hL : (normalizePage p).description
      = trimS (stripTags (jsOrOpt (iiDescValue p) (jsOrOpt p.extract ""))) := rfl
  rw [hL]
  unfold descriptionAmendedC8
  cases hv : iiDescValue p with
  | none =>
    simp only [jsOrOpt]
    exact extract_chain p.extract
  | some v =>
    by_cases h0 : v = ""
    · subst h0
      simp only [jsOrOpt, jsOrStr, if_pos rfl]
      exact extract_chain p.extract
    · simp [jsOrOpt, jsOrStr, h0]

/-- Width per the amended claim C9: copied when the first image-info element
and its width are present with a nonzero value (0 is falsy in JS and becomes
null), else null. -/
def widthAmendedC9 (p : RawPage) : Option Int :=
  match firstII p with
  | none => none
  | some i =>
    match i.width with
    | none => none
    | some w => if w = 0 then none else some w

/-- Height per the amended claim C9, analogous to `widthAmendedC9`. -/
def heightAmendedC9 (p : RawPage) : Option Int :=
  match firstII p with
  | none => none
  | some i =>
    match i.height with
    | none => none
    | some h => if h = 0 then none else some h

/-- An image-info element with width 0 and height 600. -/
def iiZeroWidth : ImageInfo :=
  { thumburl := none, url := some "https://f/z.jpg",
    width := some 0, height := some 600, extmetadata := none }

/-- A raw page whose first image-info has width 0 and height 600. -/
def rawZeroWidth : RawPage :=
  { pageid := some 4, title := some "Z", imageinfo := some [iiZeroWidth],
    thumbnail := none, extract := none, fullurl := none }

/-- Claim C9, counterexample: the first image-info element and its width are
present with value 0, but the normalizer's `ii?.width || null` treats 0 as
falsy and yields null instead of copying it (height 600 is copied). -/
theorem claim_C9_counterexample :
    (firstII rawZeroWidth).bind ImageInfo.width = some 0 ∧
      (normalizePage rawZeroWidth).width = none ∧
      (normalizePage rawZeroWidth).height = some 600 := by
  decide

/-- Claim C9 as amended: width and height are copied from the first image-info
element exactly when present with a nonzero value, and are null otherwise. -/
theorem claim_C9_amended :
    ∀ p : RawPage,
      (normalizePage p).width = widthAmendedC9 p ∧
        (normalizePage p).height = heightAmendedC9 p := by
  intro p
  have hw : (normalizePage p).width = jsNumOrNull ((firstII p).bind ImageInfo.width) := rfl
  have hh : (normalizePage p).height = jsNumOrNull ((firstII p).bind ImageInfo.height) := rfl
  rw [hw, hh]
  unfold widthAmendedC9 heightAmendedC9
  cases hi : firstII p with
  | none => simp [jsNumOrNull]
  | some i =>
    constructor
    · cases hwid : i.width with
      | none => simp [jsNumOrNull, hwid]
      | some w => simp [jsNumOrNull, hwid]
    · cases hhei : i.height with
      | none => simp [jsNumOrNull, hhei]
      | some h => simp [jsNumOrNull, hhei]

end Grapevine
